import Mathlib

/-!
Verification of the chat-history route layer of the `pixly` repository
(`src/routers/chat.py`), as a shallow embedding in Lean 4.

The route layer (the query interpreter `parse_temporal_query`, the `chat`
endpoint, the settings endpoints and the game-listing endpoint) is embedded
directly from the Python source.  The `ChatHistoryManager` backend
(`backend/chat_history.py`) is not part of the visible sources; its
operations (`add_message`, `get_recent_history`, `get_history_context`,
`get_stats` and the vector-store collection listing) are modelled from the
specification, each with a doc comment saying so.

Python strings are modelled as Lean `String`s, with the operations the code
uses (`.lower()`, the `in` substring test, `.replace`, `.title()`,
`.endsWith`, slicing, `"\n".join`) defined on the underlying character
lists so that all of them compute by kernel reduction.
-/

/-- Python `s.lower()` (ASCII, which covers every pattern the code uses):
lower-case every character. -/
def pyLower (s : String) : String :=
  ⟨s.data.map Char.toLower⟩

/-- Python `pat in s`: `pat` occurs in `s` as a contiguous substring
(the empty pattern occurs in every string). -/
def pyContains (s pat : String) : Bool :=
  (List.range (s.data.length + 1)).any fun i => pat.data.isPrefixOf (s.data.drop i)

/-- Python `s.endswith(suf)`. -/
def pyEndsWith (s suf : String) : Bool :=
  suf.data.isSuffixOf s.data

/-- Python `s[:n]`: the first `n` characters of `s`. -/
def pyTake (s : String) (n : Nat) : String :=
  ⟨s.data.take n⟩

/-- Python `sep.join(l)`. -/
def pyJoin (sep : String) : List String → String
  | [] => ""
  | [x] => x
  | x :: y :: xs => x ++ sep ++ pyJoin sep (y :: xs)

/-- Character-list core of Python `s.replace(pat, rep)`: replace every
(left-most, non-overlapping) occurrence of `pat`.  Structural recursion on
a fuel that bounds the number of characters consumed; every step consumes
at least one character, so fuel `s.length` computes the whole string. -/
def replaceList (pat rep : List Char) : Nat → List Char → List Char
  | 0, s => s
  | _ + 1, [] => []
  | fuel + 1, c :: cs =>
    if pat ≠ [] ∧ pat.isPrefixOf (c :: cs) then
      rep ++ replaceList pat rep fuel (cs.drop (pat.length - 1))
    else
      c :: replaceList pat rep fuel cs

/-- Python `s.replace(pat, rep)` (at our call sites the pattern is never
empty, so Python's empty-pattern corner is irrelevant). -/
def pyReplace (s pat rep : String) : String :=
  ⟨replaceList pat.data rep.data s.data.length s.data⟩

/-- One step of Python `s.title()`: the first character of each alphabetic
run is upper-cased, the rest are lower-cased. -/
def titleStep (acc : List Char × Bool) (c : Char) : List Char × Bool :=
  ((acc.1).append [if acc.2 then c.toLower else c.toUpper], c.isAlpha)

/-- Python `s.title()` (ASCII). -/
def pyTitle (s : String) : String :=
  ⟨(s.data.foldl titleStep ([], false)).1⟩

/-!
## The query interpreter (`parse_temporal_query`, src/routers/chat.py:21-39)

The Python function lowercases the message and walks an insertion-ordered
dict of `(phrase, hours)` pairs, returning `{"hours_ago": h, "is_temporal":
True}` for the first phrase contained in the lowered message, and
`{"is_temporal": False}` when none is.  We return `Option Nat`:
`some h` for a temporal match with window `h` hours, `none` for
non-temporal.
-/

/-- The interpreter's phrase table, in the source's (insertion) order. -/
def temporal_patterns : List (String × Nat) :=
  [("yesterday", 24),
   ("last hour", 1),
   ("past hour", 1),
   ("last 2 hours", 2),
   ("last few hours", 3),
   ("today", 24),
   ("last 24 hours", 24),
   ("this morning", 12)]

/-- `parse_temporal_query` from src/routers/chat.py:21-39: first phrase of
`temporal_patterns` contained in the lowercased message wins; `none` means
the message is classified as non-temporal. -/
def parse_temporal_query (message : String) : Option Nat :=
  (temporal_patterns.find? fun ph => pyContains (pyLower message) ph.1).map Prod.snd

example : parse_temporal_query "What did I ask Yesterday?" = some 24 := by decide
example : parse_temporal_query "in the past hour" = some 1 := by decide
example : parse_temporal_query "today this morning" = some 24 := by decide
example : parse_temporal_query "hello there" = none := by decide

/-!
## The history manager (modelled from the spec)

`backend/chat_history.py` is not among the visible sources; only the route
layer that calls it is.  The manager's state and the operations the router
uses are therefore modelled from the specification (spec §3, §4.1).
-/

/-- A stored exchange (spec §3 `MessageRecord`, restricted to the fields the
route layer reads: the record's timestamp and the two message texts).
Timestamps are UTC seconds since midnight of some epoch day. -/
structure MessageRecord where
  timestamp : Nat
  user_message : String
  assistant_response : String
deriving DecidableEq, Repr

/-- Modelled from the spec: the `ChatHistoryManager` process-wide state
(`backend/chat_history.py` is not under `src/`): a mutable `max_history`
setting and, per scope name, the scope's record list in insertion order
(spec §3: records within a scope are totally ordered by insertion; scopes
are created lazily, an unknown scope reads as the empty list). -/
structure ManagerState where
  max_history : Int
  histories : String → List MessageRecord

/-- The state the router builds at import time
(src/routers/chat.py:15-18): `max_history = 30`, no scopes yet. -/
def initManagerState : ManagerState :=
  ⟨30, fun _ => []⟩

/-- Modelled from the spec: `ChatHistoryManager.add_message`
(`backend/chat_history.py` is not under `src/`).  Per spec §4.1 it persists
the new record under the scope and then evicts the oldest record(s) until
the scope's count is at most `max_history` (FIFO, by insertion order). -/
def add_message (st : ManagerState) (game user_message assistant_response : String)
    (now : Nat) : ManagerState :=
  let lst := st.histories game ++ [⟨now, user_message, assistant_response⟩]
  let kept := lst.drop (lst.length - st.max_history.toNat)
  ⟨st.max_history, fun g => if g = game then kept else st.histories g⟩

/-- Modelled from the spec: `ChatHistoryManager.get_recent_history` as the
router's temporal branch calls it, with only `hours_ago`
(`backend/chat_history.py` is not under `src/`).  Per spec §4.1/§4.1
temporal semantics: the scope's records with `timestamp ≥ now − hours_ago
hours`, in chronological order, empty for an unknown scope. -/
def get_recent_history (st : ManagerState) (game : String) (hours_ago : Nat)
    (now : Nat) : List MessageRecord :=
  (st.histories game).filter fun r => now ≤ r.timestamp + hours_ago * 3600

/-- Modelled from the spec: `ChatHistoryManager.get_history_context`
(`backend/chat_history.py` is not under `src/`).  Per spec §4.1: a single
text block over the most recent `limit` exchanges, one paragraph per
exchange labelling which side said what, and the empty string when the
scope has no history. -/
def get_history_context (st : ManagerState) (game : String) (limit : Nat) : String :=
  let lst := st.histories game
  let recent := lst.drop (lst.length - limit)
  if recent.isEmpty then ""
  else
    pyJoin "\n\n" (recent.map fun r =>
      "User: " ++ r.user_message ++ "\nAssistant: " ++ r.assistant_response)

/-!
## The chat endpoint (`chat`, src/routers/chat.py:42-132)

The handler is embedded as a pure function of: the manager state, the
current time, the outbound model (`chat_with_gemini`, an external
collaborator, passed as an oracle `String → String` producing the response
text the handler extracts), and the request.  Its result records everything
the claims observe: the text sent to the model (if any), the response text,
the temporal flag, the resolved game, the `add_message` calls made (scope,
user_message, assistant_response), and the new manager state.
-/

/-- The request schema as the handler reads it: `message.message`,
`message.image_data`, and the `getattr`-guarded optional attributes `game`,
`include_history`, `history_limit` (absent is `none`; the handler supplies
the defaults `'general'`, `True`, `5`). -/
structure ChatMessage where
  message : String
  image_data : Option String
  game : Option String
  include_history : Option Bool
  history_limit : Option Nat

/-- Everything observable about one run of the `chat` handler. -/
structure ChatResult where
  sent_to_model : Option String
  response_text : String
  is_temporal : Bool
  game : String
  added : List (String × String × String)
  newState : ManagerState

/-- `datetime.strftime("%H:%M")` on a UTC timestamp in seconds: zero-padded
hour and minute. -/
def two_digits (n : Nat) : String :=
  (if n < 10 then "0" else "") ++ toString n

/-- The `time_str` of src/routers/chat.py:76. -/
def time_str (t : Nat) : String :=
  two_digits (t / 3600 % 24) ++ ":" ++ two_digits (t % 3600 / 60)

/-- The three lines the temporal branch appends per historical message
(src/routers/chat.py:77-79). -/
def history_entry_lines (r : MessageRecord) : List String :=
  ["At " ++ time_str r.timestamp ++ ":",
   "  You: " ++ r.user_message,
   "  Me: " ++ pyTake r.assistant_response 100 ++ "..."]

/-- The `"\n".join(history_summary)` of src/routers/chat.py:73-81. -/
def history_summary (history : List MessageRecord) : String :=
  pyJoin "\n" (history.map history_entry_lines).flatten

/-- The fixed reply of src/routers/chat.py:70 for an empty window. -/
def no_history_reply (hours_ago : Nat) (game : String) : String :=
  "I don't have any conversation history from the last " ++ toString hours_ago ++
    " hours for " ++ game ++ "."

/-- The `chat` handler (src/routers/chat.py:42-132). -/
def chat (st : ManagerState) (now : Nat) (gemini : String → String)
    (msg : ChatMessage) : ChatResult :=
  let game := msg.game.getD "general"
  let user_message := msg.message
  match parse_temporal_query user_message with
  | some hours_ago =>
    let history := get_recent_history st game hours_ago now
    let response_text :=
      if history.isEmpty then no_history_reply hours_ago game
      else history_summary history
    let st2 := add_message st game user_message response_text now
    ⟨none, response_text, true, game, [(game, user_message, response_text)], st2⟩
  | none =>
    let include_history := msg.include_history.getD true
    let history_limit := msg.history_limit.getD 5
    let enhanced_message :=
      if include_history then
        let history_context := get_history_context st game history_limit
        if history_context ≠ "" then
          history_context ++ "\n\n---\n\nCurrent question: " ++ user_message
        else user_message
      else user_message
    let response_text := gemini enhanced_message
    let st2 := add_message st game user_message response_text now
    ⟨some enhanced_message, response_text, false, game,
      [(game, user_message, response_text)], st2⟩

/-!
## The settings endpoints (src/routers/chat.py:256-295)
-/

/-- `update_history_settings` (src/routers/chat.py:256-279): values outside
`[1, 100]` raise an HTTP 400 and leave the manager untouched; otherwise the
manager's `max_history` is assigned.  The pair is (outcome, manager state
after the call). -/
def update_history_settings (max_history : Int) (st : ManagerState) :
    Except String Int × ManagerState :=
  if max_history < 1 || max_history > 100 then
    (Except.error "max_history must be between 1 and 100", st)
  else
    (Except.ok max_history, ⟨max_history, st.histories⟩)

/-- `get_history_settings` (src/routers/chat.py:282-295): reads the
manager's current `max_history`. -/
def get_history_settings (st : ManagerState) : Int :=
  st.max_history

/-!
## The game-listing endpoint (`list_games_with_history`,
src/routers/chat.py:227-253)

The endpoint reads `chat_history_manager.client.list_collections()` — the
persistent store's collection listing — and keeps every collection whose
name ends with `"_chat_history"`, deriving a display name and attaching
`get_stats(...)["total_messages"]`.  The store and `get_stats` are modelled
from the spec.
-/

/-- Modelled from the spec: one collection of the persistent vector store
(spec §6: the store enumerates scope collections and counts records; a
collection holds the records of one scope). -/
structure HistCollection where
  name : String
  count : Nat
deriving DecidableEq, Repr

/-- One entry of the endpoint's `games_with_history` response list. -/
structure GameEntry where
  game : String
  collection_name : String
  total_messages : Nat
deriving DecidableEq, Repr

/-- Modelled from the spec: `ChatHistoryManager.get_stats(game)["total_messages"]`
with the route layer's `.get("total_messages", 0)` default
(`backend/chat_history.py` is not under `src/`).  Per spec §4.1 it is the
scope's current record count, zero for an empty or unknown scope; the scope
is keyed in the store by the naming convention the route layer itself
decodes (scope lower-cased, spaces as underscores, suffix
`"_chat_history"`). -/
def get_stats_total (cols : List HistCollection) (game : String) : Nat :=
  match cols.find? (fun c => c.name == pyReplace (pyLower game) " " "_" ++ "_chat_history") with
  | some c => c.count
  | none => 0

/-- `list_games_with_history` (src/routers/chat.py:227-253): every store
collection whose name ends with `"_chat_history"` yields one entry, named
`collection.name.replace("_chat_history", "").replace("_", " ").title()`,
with that game's `total_messages` stat. -/
def list_games_with_history (cols : List HistCollection) : List GameEntry :=
  (cols.filter fun c => pyEndsWith c.name "_chat_history").map fun c =>
    let game_name := pyTitle (pyReplace (pyReplace c.name "_chat_history" "") "_" " ")
    ⟨game_name, c.name, get_stats_total cols game_name⟩

example :
    list_games_with_history [⟨"foo_chat_history", 0⟩] =
      [⟨"Foo", "foo_chat_history", 0⟩] := by decide
example :
    list_games_with_history [⟨"minecraft_chat_history", 7⟩, ⟨"other", 3⟩] =
      [⟨"Minecraft", "minecraft_chat_history", 7⟩] := by decide

/-!
## Theorems
-/

/-- `find?` returns the entry at index `i` when the predicate holds there
and at no earlier index. -/
theorem find_first_match {α : Type} (p : α → Bool) :
    ∀ (l : List α) (i : Fin l.length), p (l.get i) = true →
      (∀ k : Fin l.length, (k : ℕ) < (i : ℕ) → p (l.get k) = false) →
      l.find? p = some (l.get i)
  | [], i, _, _ => absurd i.isLt (by simp)
  | a :: l, ⟨0, _⟩, hi, _ => by
      simpa using List.find?_cons_of_pos l hi
  | a :: l, ⟨n + 1, hn⟩, hi, hfirst => by
      have ha : p a = false := hfirst ⟨0, Nat.succ_pos _⟩ (Nat.succ_pos n)
      rw [List.find?_cons_of_neg l (by simp [ha])]
      exact find_first_match p l ⟨n, Nat.lt_of_succ_lt_succ hn⟩ hi
        (fun k hk => hfirst ⟨(k : ℕ) + 1, Nat.succ_lt_succ k.isLt⟩ (Nat.succ_lt_succ hk))

/-- C3: the interpreter classifies by case-insensitive substring matching
against the fixed phrase table, and each listed phrase, when it is the
(first) match, yields its listed window: "yesterday" → 24 h, "last hour"
and "past hour" → 1 h, "last 2 hours" → 2 h, "today" and "last 24 hours" →
24 h, "this morning" → 12 h; a phrase matches exactly when the lowercased
message contains it as a substring. -/
theorem interpreter_phrase_table_correct (m : String) :
    ((parse_temporal_query m).isSome ↔
      ∃ p ∈ temporal_patterns, pyContains (pyLower m) p.1 = true)
    ∧ (pyContains (pyLower m) "yesterday" = true →
        parse_temporal_query m = some 24)
    ∧ (pyContains (pyLower m) "yesterday" = false →
        pyContains (pyLower m) "last hour" = true →
        parse_temporal_query m = some 1)
    ∧ (pyContains (pyLower m) "yesterday" = false →
        pyContains (pyLower m) "last hour" = false →
        pyContains (pyLower m) "past hour" = true →
        parse_temporal_query m = some 1)
    ∧ (pyContains (pyLower m) "yesterday" = false →
        pyContains (pyLower m) "last hour" = false →
        pyContains (pyLower m) "past hour" = false →
        pyContains (pyLower m) "last 2 hours" = true →
        parse_temporal_query m = some 2)
    ∧ (pyContains (pyLower m) "yesterday" = false →
        pyContains (pyLower m) "last hour" = false →
        pyContains (pyLower m) "past hour" = false →
        pyContains (pyLower m) "last 2 hours" = false →
        pyContains (pyLower m) "last few hours" = false →
        pyContains (pyLower m) "today" = true →
        parse_temporal_query m = some 24)
    ∧ (pyContains (pyLower m) "yesterday" = false →
        pyContains (pyLower m) "last hour" = false →
        pyContains (pyLower m) "past hour" = false →
        pyContains (pyLower m) "last 2 hours" = false →
        pyContains (pyLower m) "last few hours" = false →
        pyContains (pyLower m) "today" = false →
        pyContains (pyLower m) "last 24 hours" = true →
        parse_temporal_query m = some 24)
    ∧ (pyContains (pyLower m) "yesterday" = false →
        pyContains (pyLower m) "last hour" = false →
        pyContains (pyLower m) "past hour" = false →
        pyContains (pyLower m) "last 2 hours" = false →
        pyContains (pyLower m) "last few hours" = false →
        pyContains (pyLower m) "today" = false →
        pyContains (pyLower m) "last 24 hours" = false →
        pyContains (pyLower m) "this morning" = true →
        parse_temporal_query m = some 12) := by
  refine ⟨?_, ?_, ?_, ?_, ?_, ?_, ?_, ?_⟩
  · simp [parse_temporal_query, List.find?_isSome]
  all_goals
    intros
    simp_all [parse_temporal_query, temporal_patterns]

/-- Witness for `interpreter_phrase_table_correct`: at the concrete message
"Past hour?" the listed phrase "past hour" is the match and the window is
1 hour. -/
theorem interpreter_phrase_table_correct_witness :
    parse_temporal_query "Past hour?" = some 1 :=
  (interpreter_phrase_table_correct "Past hour?").2.2.2.1
    (by decide) (by decide) (by decide)

/-- C4: when two or more phrases of the table occur in a message, the
interpreter returns the window of the first matching pattern in the table's
fixed order (yesterday, last hour, past hour, last 2 hours, last few hours,
today, last 24 hours, this morning), not that of any later-listed
co-occurring phrase. -/
theorem interpreter_first_match_priority (m : String)
    (i j : Fin temporal_patterns.length)
    (hij : (i : ℕ) < (j : ℕ))
    (hi : pyContains (pyLower m) (temporal_patterns.get i).1 = true)
    (hj : pyContains (pyLower m) (temporal_patterns.get j).1 = true)
    (hfirst : ∀ k : Fin temporal_patterns.length,
      (k : ℕ) < (i : ℕ) → pyContains (pyLower m) (temporal_patterns.get k).1 = false) :
    parse_temporal_query m = some (temporal_patterns.get i).2 := by
  unfold parse_temporal_query
  rw [find_first_match (fun ph => pyContains (pyLower m) ph.1) temporal_patterns i hi hfirst]
  rfl

/-- Witness for `interpreter_first_match_priority`: "today this morning"
contains both "today" (index 5, 24 h) and "this morning" (index 7, 12 h);
the interpreter returns 24 h, the window of the earlier-listed phrase. -/
theorem interpreter_first_match_priority_witness :
    parse_temporal_query "today this morning" = some 24 :=
  interpreter_first_match_priority "today this morning" ⟨5, by decide⟩ ⟨7, by decide⟩
    (by decide) (by decide) (by decide) (by decide)

/-- C5: a message whose lowercased text contains none of the table's
phrases as a substring is classified as non-temporal (no time window). -/
theorem interpreter_no_match_non_temporal (m : String)
    (h : ∀ p ∈ temporal_patterns, pyContains (pyLower m) p.1 = false) :
    parse_temporal_query m = none := by
  unfold parse_temporal_query
  rw [List.find?_eq_none.mpr (fun x hx => by simp [h x hx])]
  rfl

/-- Witness for `interpreter_no_match_non_temporal`: "How do I craft a
sword?" contains no table phrase and is classified non-temporal. -/
theorem interpreter_no_match_non_temporal_witness :
    parse_temporal_query "How do I craft a sword?" = none :=
  interpreter_no_match_non_temporal "How do I craft a sword?" (by decide)

/-- C8: the query interpreter is pure and stateless.  In the embedding it
is a function of the message text alone; correspondingly, the temporal
classification the `chat` handler computes is the same for every manager
state, clock value and outbound model, and equals the interpreter's verdict
on the message. -/
theorem interpreter_stateless (st st' : ManagerState) (now now' : Nat)
    (gemini gemini' : String → String) (msg : ChatMessage) :
    (chat st now gemini msg).is_temporal = (parse_temporal_query msg.message).isSome
    ∧ (chat st now gemini msg).is_temporal = (chat st' now' gemini' msg).is_temporal := by
  cases h : parse_temporal_query msg.message <;> simp [chat, h]

/-- C1: for every requested `max_history` value outside [1, 100] the
settings-update endpoint rejects the request with an error, and a
subsequent read of the setting returns the value it had before the
rejected call. -/
theorem settings_reject_out_of_range (st : ManagerState) (v : Int)
    (h : v < 1 ∨ v > 100) :
    (update_history_settings v st).1 =
        Except.error "max_history must be between 1 and 100"
    ∧ get_history_settings (update_history_settings v st).2 =
        get_history_settings st := by
  have hcond : (v < 1 || v > 100) = true := by
    rcases h with h | h <;> simp [h]
  unfold update_history_settings
  rw [hcond]
  exact ⟨rfl, rfl⟩

/-- Witness for `settings_reject_out_of_range`: both 0 and 101 are
rejected on the import-time state (`max_history = 30`) and the setting
still reads 30 afterwards. -/
theorem settings_reject_out_of_range_witness :
    ((update_history_settings 0 initManagerState).1 =
        Except.error "max_history must be between 1 and 100"
      ∧ get_history_settings (update_history_settings 0 initManagerState).2 =
        get_history_settings initManagerState)
    ∧ ((update_history_settings 101 initManagerState).1 =
        Except.error "max_history must be between 1 and 100"
      ∧ get_history_settings (update_history_settings 101 initManagerState).2 =
        get_history_settings initManagerState) :=
  ⟨settings_reject_out_of_range initManagerState 0 (Or.inl (by decide)),
   settings_reject_out_of_range initManagerState 101 (Or.inr (by decide))⟩

/-- C6: in the non-temporal flow with history inclusion enabled, a
non-empty context summary is prepended to the user's message in the
outbound model call; with an empty summary, or with history inclusion
disabled, the outbound message is exactly the user's message. -/
theorem chat_prepends_context (st : ManagerState) (now : Nat)
    (gemini : String → String) (msg : ChatMessage)
    (h : parse_temporal_query msg.message = none) :
    (msg.include_history.getD true = true →
      get_history_context st (msg.game.getD "general") (msg.history_limit.getD 5) ≠ "" →
      (chat st now gemini msg).sent_to_model =
        some (get_history_context st (msg.game.getD "general") (msg.history_limit.getD 5) ++
          "\n\n---\n\nCurrent question: " ++ msg.message))
    ∧ (msg.include_history.getD true = true →
      get_history_context st (msg.game.getD "general") (msg.history_limit.getD 5) = "" →
      (chat st now gemini msg).sent_to_model = some msg.message)
    ∧ (msg.include_history.getD true = false →
      (chat st now gemini msg).sent_to_model = some msg.message) := by
  refine ⟨fun h1 h2 => ?_, fun h1 h2 => ?_, fun h1 => ?_⟩
  · simp [chat, h, h1, h2]
  · simp [chat, h, h1, h2]
  · simp [chat, h, h1]

/-- Witness for `chat_prepends_context`: a fresh manager has an empty
context for scope "general", so the outbound message for the non-temporal
request "Hi" is exactly "Hi". -/
theorem chat_prepends_context_witness :
    (chat initManagerState 0 (fun s => s)
      ⟨"Hi", none, none, none, none⟩).sent_to_model = some "Hi" :=
  (chat_prepends_context initManagerState 0 (fun s => s)
      ⟨"Hi", none, none, none, none⟩ (by decide)).2.1 (by decide) (by decide)

/-- C7: every non-temporal chat request that completes appends, after the
outbound model call, exactly one new exchange — the user's original message
and the model's response text — to the request's scope via `add_message`. -/
theorem chat_nontemporal_appends_exchange (st : ManagerState) (now : Nat)
    (gemini : String → String) (msg : ChatMessage)
    (h : parse_temporal_query msg.message = none) :
    ∃ sent, (chat st now gemini msg).sent_to_model = some sent
      ∧ (chat st now gemini msg).added =
          [(msg.game.getD "general", msg.message, gemini sent)]
      ∧ (chat st now gemini msg).newState =
          add_message st (msg.game.getD "general") msg.message (gemini sent) now := by
  simp only [chat, h]
  exact ⟨_, rfl, rfl, rfl⟩

/-- Witness for `chat_nontemporal_appends_exchange`: the non-temporal
request "ping" on a fresh manager. -/
theorem chat_nontemporal_appends_exchange_witness :
    ∃ sent, (chat initManagerState 0 (fun _ => "pong")
        ⟨"ping", none, none, none, none⟩).sent_to_model = some sent
      ∧ (chat initManagerState 0 (fun _ => "pong")
          ⟨"ping", none, none, none, none⟩).added =
          [("general", "ping", (fun _ => "pong") sent)]
      ∧ (chat initManagerState 0 (fun _ => "pong")
          ⟨"ping", none, none, none, none⟩).newState =
          add_message initManagerState "general" "ping" ((fun _ => "pong") sent) 0 :=
  chat_nontemporal_appends_exchange initManagerState 0 (fun _ => "pong")
    ⟨"ping", none, none, none, none⟩ (by decide)

/-- C10: a request whose message object carries no game field is processed
under the default scope "general": the whole run is identical to the same
request with game "general", the reported game is "general", and every
`add_message` call targets scope "general". -/
theorem chat_default_scope (st : ManagerState) (now : Nat)
    (gemini : String → String) (msg : ChatMessage) (h : msg.game = none) :
    chat st now gemini msg =
      chat st now gemini
        ⟨msg.message, msg.image_data, some "general", msg.include_history, msg.history_limit⟩
    ∧ (chat st now gemini msg).game = "general"
    ∧ ∀ e ∈ (chat st now gemini msg).added, e.1 = "general" := by
  cases msg with
  | mk message image_data game include_history history_limit =>
    cases h
    refine ⟨?_, ?_, ?_⟩ <;>
      cases hp : parse_temporal_query message <;>
        simp [chat, hp]

/-- Witness for `chat_default_scope`: the game-less request "hello" is
reported under scope "general". -/
theorem chat_default_scope_witness :
    (chat initManagerState 0 (fun s => s)
      ⟨"hello", none, none, none, none⟩).game = "general" :=
  (chat_default_scope initManagerState 0 (fun s => s)
    ⟨"hello", none, none, none, none⟩ rfl).2.1

/-- Counterexample to C9 as stated: with `max_history = 1` and scope
"general" already holding one record, the temporal request "yesterday" is
answered and its exchange stored, but eviction keeps the scope at one
record — the history does not grow by one. -/
theorem chat_temporal_growth_counterexample :
    ((chat ⟨1, fun g => if g = "general" then [⟨0, "a", "b"⟩] else []⟩ 0 (fun s => s)
        ⟨"yesterday", none, none, none, none⟩).is_temporal = true)
    ∧ (((⟨1, fun g => if g = "general" then [⟨0, "a", "b"⟩] else []⟩ : ManagerState).histories
        "general").length = 1)
    ∧ (((chat ⟨1, fun g => if g = "general" then [⟨0, "a", "b"⟩] else []⟩ 0 (fun s => s)
        ⟨"yesterday", none, none, none, none⟩).newState.histories "general").length = 1) := by
  refine ⟨by decide, by decide, ?_⟩
  decide

/-- Below the bound, `add_message` grows the scope's record count by one
(no eviction fires). -/
theorem add_message_length_of_lt (st : ManagerState)
    (game user_message assistant_response : String) (now : Nat)
    (h : (st.histories game).length < st.max_history.toNat) :
    ((add_message st game user_message assistant_response now).histories game).length =
      (st.histories game).length + 1 := by
  simp only [add_message, eq_self_iff_true, if_true, List.length_drop,
    List.length_append, List.length_cons, List.length_nil]
  omega

/-- C9 (amended): every temporal chat request appends, via `add_message`,
one exchange made of the user's message and the generated history summary
(or the fixed no-history reply when the window is empty); the scope's
record count grows by one whenever it is below the `max_history` bound
(at the bound, eviction keeps the count unchanged). -/
theorem chat_temporal_appends_exchange (st : ManagerState) (now : Nat)
    (gemini : String → String) (msg : ChatMessage) (hours_ago : Nat)
    (hT : parse_temporal_query msg.message = some hours_ago) :
    ((chat st now gemini msg).added =
        [(msg.game.getD "general", msg.message, (chat st now gemini msg).response_text)])
    ∧ ((get_recent_history st (msg.game.getD "general") hours_ago now).isEmpty = true →
        (chat st now gemini msg).response_text =
          no_history_reply hours_ago (msg.game.getD "general"))
    ∧ ((get_recent_history st (msg.game.getD "general") hours_ago now).isEmpty = false →
        (chat st now gemini msg).response_text =
          history_summary (get_recent_history st (msg.game.getD "general") hours_ago now))
    ∧ ((chat st now gemini msg).newState =
        add_message st (msg.game.getD "general") msg.message
          (chat st now gemini msg).response_text now)
    ∧ ((st.histories (msg.game.getD "general")).length < st.max_history.toNat →
        ((chat st now gemini msg).newState.histories (msg.game.getD "general")).length =
          (st.histories (msg.game.getD "general")).length + 1) := by
  refine ⟨?_, fun hE => ?_, fun hE => ?_, ?_, fun hlt => ?_⟩
  · simp [chat, hT]
  · simp [chat, hT, hE]
  · simp [chat, hT, hE]
  · simp [chat, hT]
  · simp only [chat, hT]
    exact add_message_length_of_lt st (msg.game.getD "general") msg.message _ now hlt

/-- Witness for `chat_temporal_appends_exchange`: the temporal request
"yesterday" on a fresh manager (empty scope, bound 30) stores the fixed
no-history reply and the scope grows from zero to one record. -/
theorem chat_temporal_appends_exchange_witness :
    ((chat initManagerState 7200 (fun s => s)
        ⟨"yesterday", none, none, none, none⟩).added =
      [("general", "yesterday",
        (chat initManagerState 7200 (fun s => s)
          ⟨"yesterday", none, none, none, none⟩).response_text)])
    ∧ ((chat initManagerState 7200 (fun s => s)
        ⟨"yesterday", none, none, none, none⟩).newState.histories "general").length = 0 + 1 :=
  ⟨(chat_temporal_appends_exchange initManagerState 7200 (fun s => s)
      ⟨"yesterday", none, none, none, none⟩ 24 (by decide)).1,
   (chat_temporal_appends_exchange initManagerState 7200 (fun s => s)
      ⟨"yesterday", none, none, none, none⟩ 24 (by decide)).2.2.2.2 (by decide)⟩

/-- Counterexample to C2 as stated: a store collection
"foo_chat_history" holding zero records still yields an entry in the
listing (with `total_messages = 0`) — a scope with an empty history does
appear in the returned list. -/
theorem list_games_empty_scope_counterexample :
    list_games_with_history [⟨"foo_chat_history", 0⟩] =
      [⟨"Foo", "foo_chat_history", 0⟩] := by
  decide

/-- C2 (amended): the scope-listing endpoint returns one entry per store
collection whose name ends with `"_chat_history"`, regardless of how many
records the collection holds — it does not filter out scopes with an empty
history. -/
theorem list_games_lists_suffix_collections (cols : List HistCollection) :
    ((list_games_with_history cols).map GameEntry.collection_name =
      (cols.filter fun c => pyEndsWith c.name "_chat_history").map HistCollection.name)
    ∧ ∀ c ∈ cols, pyEndsWith c.name "_chat_history" = true →
        ∃ e ∈ list_games_with_history cols, e.collection_name = c.name := by
  constructor
  · simp [list_games_with_history, Function.comp]
  · intro c hc hs
    exact ⟨_, List.mem_map_of_mem _ (List.mem_filter.mpr ⟨hc, hs⟩), rfl⟩

/-- Witness for `list_games_lists_suffix_collections`: in a store holding
an empty "foo_chat_history" collection and an unrelated collection, the
listing names exactly "foo_chat_history". -/
theorem list_games_lists_suffix_collections_witness :
    ((list_games_with_history [⟨"foo_chat_history", 0⟩, ⟨"other", 3⟩]).map
        GameEntry.collection_name =
      (([⟨"foo_chat_history", 0⟩, ⟨"other", 3⟩] :
          List HistCollection).filter fun c => pyEndsWith c.name "_chat_history").map
        HistCollection.name)
    ∧ ∃ e ∈ list_games_with_history [⟨"foo_chat_history", 0⟩, ⟨"other", 3⟩],
        e.collection_name = "foo_chat_history" :=
  ⟨(list_games_lists_suffix_collections [⟨"foo_chat_history", 0⟩, ⟨"other", 3⟩]).1,
   (list_games_lists_suffix_collections [⟨"foo_chat_history", 0⟩, ⟨"other", 3⟩]).2
     ⟨"foo_chat_history", 0⟩ (by decide) (by decide)⟩
